import Mathlib

/-!
Shallow embedding of the ferre_vargas service-report server
(two variants: the sqlite variant in src/unnamed/part_000 serving
/api/reports, and the Supabase variant in src/API/server.js serving
/api/informes), with theorems checking the specification claims.

Bytes and byte buffers are modelled as strings; timestamps are ISO
strings ordered lexicographically, as sqlite orders TEXT columns.
-/

namespace FerreVargas

/-- Truthiness of a JavaScript form/query field: absent (undefined) and
the empty string are falsy, every other string is truthy. -/
def truthy : Option String → Bool
  | none => false
  | some s => !(s == "")

/-- Value of a possibly-NULL column interpolated into a JS template
literal: null prints as the string null. -/
def jsStr : Option String → String
  | none => "null"
  | some s => s

/-- Model of JS String.split on a single comma separator, over the
character list of the string: returns the list of comma-free segments. -/
def splitOnComma : List Char → List (List Char)
  | [] => [[]]
  | c :: rest =>
    match splitOnComma rest with
    | [] => [[]]
    | h :: t => if c = ',' then [] :: h :: t else (c :: h) :: t

/-- Model of the base64 data-URL decoding shared by saveBase64PNG
(part_000 line 91) and saveBase64ToBuffer (server.js line 57):
dataURL.split(",")[1] selects the segment after the first comma, and
Buffer.from(undefined, "base64") throws a TypeError when the data URL
has no comma. The decoded bytes are modelled by the payload segment. -/
def dataURLPayload (dataURL : String) : Except String String :=
  match splitOnComma dataURL.toList with
  | _ :: payload :: _ => .ok (String.mk payload)
  | _ => .error "TypeError: first argument must be of type string"

theorem splitOnComma_ne_nil (cs : List Char) : splitOnComma cs ≠ [] := by
  induction cs with
  | nil => simp [splitOnComma]
  | cons c rest ih =>
    simp only [splitOnComma]
    cases h : splitOnComma rest with
    | nil => simp
    | cons x xs => by_cases hc : c = ',' <;> simp [hc]

theorem splitOnComma_of_no_comma (cs : List Char) (h : ',' ∉ cs) :
    splitOnComma cs = [cs] := by
  induction cs with
  | nil => rfl
  | cons c rest ih =>
    simp only [List.mem_cons, not_or] at h
    have hc : ¬ c = ',' := fun hh => h.1 hh.symm
    simp [splitOnComma, ih h.2, hc]

/-- A data URL containing no comma makes the decoding helper throw. -/
theorem dataURLPayload_no_comma (s : String) (h : ',' ∉ s.toList) :
    dataURLPayload s = .error "TypeError: first argument must be of type string" := by
  unfold dataURLPayload
  rw [splitOnComma_of_no_comma _ h]

/-- Byte-wise lexicographic less-or-equal on character lists, modelling
how sqlite compares TEXT values (memcmp order) for the created_at
filters and the ORDER BY clause. -/
def charsLe : List Char → List Char → Bool
  | [], _ => true
  | _ :: _, [] => false
  | a :: as, b :: bs =>
    if a = b then charsLe as bs else decide (a.toNat < b.toNat)

/-- TEXT-column comparison used by the created_at range filters. -/
def strLe (a b : String) : Bool := charsLe a.toList b.toList

/-- Whitespace membership for the filename sanitiser regex \s. -/
def isWS (c : Char) : Bool := c = ' ' || c = '\t' || c = '\n' || c = '\r'

/-- Worker for collapseWS; the flag records whether the previous
character was inside a whitespace run already replaced by _. -/
def collapseWSAux : Bool → List Char → List Char
  | _, [] => []
  | inRun, c :: rest =>
    if isWS c then
      (if inRun then [] else ['_']) ++ collapseWSAux true rest
    else c :: collapseWSAux false rest

/-- Model of .replace(/\s+/g, "_") applied to PDF file names: every
maximal run of whitespace collapses to a single underscore. -/
def collapseWS (cs : List Char) : List Char := collapseWSAux false cs

/-- String form of the filename sanitiser. -/
def sanitize (s : String) : String := String.mk (collapseWS s.toList)

/-- Model of created_at.split("T")[0] in the part_000 PDF file name. -/
def dateOnly (s : String) : String := String.mk (s.toList.takeWhile (· ≠ 'T'))

-- ------------------------- DATA MODEL -------------------------

/-- A row of the reports table (part_000 CREATE TABLE, lines 46-67) /
the informes table (server.js insert, lines 193-214). TEXT columns that
the code may leave NULL are Option String; estado is always written
(the insert defaults it), fotos and anexos are the stored lists of
asset references, pdf_path is NULL until rendering completes. -/
structure Report where
  id : String
  created_at : String
  updated_at : String
  num_reporte : Option String
  usuario : Option String
  cliente : Option String
  telefono : Option String
  tipo_equipo : Option String
  tipo_servicio : Option String
  diagnostico : Option String
  trabajos : Option String
  observaciones : Option String
  estado : String
  firma_tecnico : Option String
  firma_cliente : Option String
  fotos : List String
  anexos : List String
  pdf_path : Option String
deriving DecidableEq, Repr

/-- The text fields of a multipart submission body (req.body); absent
fields are none, JS sees them as undefined. -/
structure ReqBody where
  num_reporte : Option String
  usuario : Option String
  cliente : Option String
  telefono : Option String
  tipo_equipo : Option String
  tipo_servicio : Option String
  diagnostico : Option String
  trabajos : Option String
  observaciones : Option String
  estado : Option String
  firma_tecnico : Option String
  firma_cliente : Option String
deriving DecidableEq, Repr

/-- An uploaded file as multer hands it to the route (req.files). -/
structure FileUpload where
  originalname : String
  filename : String
  buffer : String
  mimetype : String
deriving DecidableEq, Repr

/-- The reports table: rows in insertion order. -/
abbrev DB := List Report

/-- Local filesystem of the sqlite variant: path to file bytes. -/
abbrev FS := String → Option String

/-- Overwriting file write, the semantics of fs.writeFileSync. -/
def writeFile (fs : FS) (p bytes : String) : FS :=
  fun q => if q = p then some bytes else fs q

/-- Supabase storage state: (bucket, path) to (bytes, contentType). -/
abbrev StorageState := String × String → Option (String × String)

/-- Public URL that supabase.storage.getPublicUrl resolves a stored
object to; a pure function of the bucket and path. -/
def publicUrl (supabaseURL bucket p : String) : String :=
  supabaseURL ++ "/storage/v1/object/public/" ++ bucket ++ "/" ++ p

/-- Model of uploadToStorage (server.js lines 46-55): upload with
upsert true overwrites the object at (bucket, path) and the returned
reference is the public URL of that path. -/
def uploadToStorage (supabaseURL : String) (st : StorageState)
    (bucket p bytes contentType : String) : StorageState × String :=
  (fun k => if k = (bucket, p) then some (bytes, contentType) else st k,
   publicUrl supabaseURL bucket p)

-- ------------------------- PDF RENDERER -------------------------

/-- Operations emitted into the PDF document, abstracting pdfkit calls
that the renderer makes with explicit coordinates. -/
inductive PDFOp where
  | text (s : String) : PDFOp
  | hline : PDFOp
  | imageFit (ref : String) (x y w h page : Nat) : PDFOp
  | imageW (ref : String) (x y w page : Nat) : PDFOp
  | caption (s : String) (x y : Nat) : PDFOp
deriving DecidableEq, Repr

/-- Style options passed to QRCode.toDataURL by the sqlite variant. -/
structure QROptions where
  dark : String
  light : String
  margin : Nat
  width : Nat
deriving DecidableEq, Repr

/-- The options object of part_000 line 170-174. -/
def qrOptionsLocal : QROptions :=
  { dark := "#00A650", light := "#FFFF00", margin := 1, width := 160 }

/-- Ambient configuration and external services of one request:
environment variables, the pdfkit serialiser, the date formatter, the
QR encoding library, and the SMTP transporter outcome. -/
structure Env where
  baseURL : String
  appName : String
  supabaseURL : String
  today : String
  toLocale : String → String
  render : List PDFOp → String
  qrEnc : String → Option QROptions → Except String String
  smtpConfigured : Bool
  sendMail : Except String Unit

/-- Cursor values of the pdfkit document (doc.y and the current page)
at the start of the photo grid and of the signature block; pdfkit text
metrics are not modelled, so these are inputs of the renderer model. -/
structure RenderCursor where
  photosY : Nat
  photosPage : Nat
  sigY : Nat
  sigPage : Nat
deriving DecidableEq, Repr

/-- Fixed bounding-box width of a grid photo (maxW, part_000 line 144). -/
def maxW : Nat := 180

/-- Fixed bounding-box height of a grid photo (maxH, part_000 line 144). -/
def maxH : Nat := 140

/-- Position of one grid cell: x, y and the page it lands on. -/
structure GridPos where
  x : Nat
  y : Nat
  page : Nat
deriving DecidableEq, Repr

/-- One step of the photo-grid loop of part_000 lines 149-151 /
server.js lines 106-108: after placing an image, x advances by
maxW + 15; when x + maxW would pass 555 the position wraps to x = 40
one row (maxH + 20) down; when y + maxH would pass 740 a page is added
and y restarts at 60. -/
def gridAdvance (p : GridPos) : GridPos :=
  let x1 := p.x + maxW + 15
  let q : GridPos :=
    if x1 + maxW > 555 then { x := 40, y := p.y + maxH + 20, page := p.page }
    else { x := x1, y := p.y, page := p.page }
  if q.y + maxH > 740 then { x := q.x, y := 60, page := q.page + 1 } else q

/-- Positions at which the grid loop places each photo, in order. -/
def photoPlacements : List String → GridPos → List (String × GridPos)
  | [], _ => []
  | f :: fs, p => (f, p) :: photoPlacements fs (gridAdvance p)

/-- Image operations the grid loop emits: each photo drawn at its
placement inside a fit box of maxW by maxH. -/
def photoOps (fotos : List String) (p0 : GridPos) : List PDFOp :=
  (photoPlacements fotos p0).map
    (fun pr => .imageFit pr.1 pr.2.x pr.2.y maxW maxH pr.2.page)

/-- Header block of the document (part_000 lines 117-126). -/
def headerOps (env : Env) (r : Report) : List PDFOp :=
  [.text env.appName,
   .text ("Reporte: " ++ jsStr r.num_reporte ++ "    Fecha: " ++ env.toLocale r.created_at),
   .text ("Usuario: " ++ jsStr r.usuario),
   .text ("Teléfono: " ++ jsStr r.telefono),
   .text ("Técnico / Lugar: " ++ jsStr r.cliente),
   .hline]

/-- One labeled field: bold title then the value, a dash when the
value is falsy (part_000 lines 130-133). -/
def fieldOps (title : String) (value : Option String) : List PDFOp :=
  [.text title, .text (if truthy value then jsStr value else "-")]

/-- The five labeled fields in their fixed order. -/
def fieldsOps (r : Report) : List PDFOp :=
  fieldOps "Tipo de equipo" r.tipo_equipo ++
  fieldOps "Tipo de servicio" r.tipo_servicio ++
  fieldOps "Diagnóstico" r.diagnostico ++
  fieldOps "Trabajos realizados" r.trabajos ++
  fieldOps "Observaciones" r.observaciones

/-- Photo section: skipped entirely when the photo list is empty
(part_000 lines 141-153). -/
def photoSection (r : Report) (cur : RenderCursor) : List PDFOp :=
  if r.fotos.isEmpty then []
  else .text "Registro fotográfico" ::
    photoOps r.fotos { x := 40, y := cur.photosY, page := cur.photosPage }

/-- Signature block: each signature drawn only when its reference is
truthy, at fixed coordinates, with its caption (part_000 155-165). -/
def sigSection (r : Report) (cur : RenderCursor) : List PDFOp :=
  .text "Firmas" ::
  (if truthy r.firma_tecnico then
    [.imageW (jsStr r.firma_tecnico) 60 cur.sigY 180 cur.sigPage,
     .caption "Técnico" 100 (cur.sigY + 90)]
   else []) ++
  (if truthy r.firma_cliente then
    [.imageW (jsStr r.firma_cliente) 320 cur.sigY 180 cur.sigPage,
     .caption "Cliente" 360 (cur.sigY + 90)]
   else [])

/-- PDF file name of the sqlite variant (part_000 lines 107-110). -/
def pdfFileNameLocal (r : Report) : String :=
  sanitize ("Reporte_" ++ jsStr r.num_reporte ++ "_" ++ jsStr r.usuario ++ "_"
    ++ dateOnly r.created_at ++ ".pdf")

/-- Public online-view URL encoded into the QR (part_000 line 168 /
server.js line 131). -/
def publicReportURL (env : Env) (r : Report) : String :=
  env.baseURL ++ "/public/report.html?id=" ++ r.id

/-- Public PDF URL of the sqlite variant (part_000 line 169): the
stored pdf_path when truthy, else the freshly computed file name. -/
def publicPDFURLLocal (env : Env) (r : Report) : String :=
  env.baseURL ++
    (if truthy r.pdf_path then jsStr r.pdf_path
     else "/uploads/" ++ pdfFileNameLocal r)

/-- Text passed to the QR encoder by the sqlite variant (line 170). -/
def qrTextLocal (env : Env) (r : Report) : String :=
  publicReportURL env r ++ "|" ++ publicPDFURLLocal env r

/-- Model of generatePDF of the sqlite variant (part_000 lines
105-185). The emb flag tells whether drawing the QR image file into
the page succeeds; the try block there swallows its failure, while
the QRCode.toDataURL call and the QR file write are not wrapped.
Returns the emitted operations, the returned pdf path and the final
filesystem. -/
def generatePDF (env : Env) (emb : Bool) (fs : FS) (cur : RenderCursor)
    (r : Report) : Except String (List PDFOp × String × FS) :=
  let pdfName := pdfFileNameLocal r
  let bodyOps := headerOps env r ++ fieldsOps r ++ photoSection r cur ++ sigSection r cur
  match env.qrEnc (qrTextLocal env r) (some qrOptionsLocal) with
  | .error e => .error e
  | .ok qrDataURL =>
    match dataURLPayload qrDataURL with
    | .error e => .error e
    | .ok qrBytes =>
      let qrPath := "/uploads/qr_" ++ r.id ++ ".png"
      let fs1 := writeFile fs qrPath qrBytes
      let qrOps :=
        if emb then
          [PDFOp.caption "Escanee para ver el reporte y PDF online" 40 (842 - 60),
           PDFOp.imageW qrPath (595 - 150) (842 - 100) 90 cur.sigPage]
        else []
      let pdfPath := "/uploads/" ++ pdfName
      let fs2 := writeFile fs1 pdfPath (env.render (bodyOps ++ qrOps))
      .ok (bodyOps ++ qrOps, pdfPath, fs2)

/-- PDF file name of the Supabase variant (server.js lines 63-65):
uses the current date rather than the record's creation date. -/
def pdfFileNameCloud (env : Env) (r : Report) : String :=
  sanitize ("Reporte_" ++ jsStr r.num_reporte ++ "_" ++ jsStr r.usuario ++ "_"
    ++ env.today ++ ".pdf")

/-- Storage path of the rendered PDF (server.js line 67). -/
def pdfStoragePath (env : Env) (r : Report) : String :=
  "pdfs/" ++ r.id ++ "/" ++ pdfFileNameCloud env r

/-- Public PDF URL of the Supabase variant (server.js line 132). -/
def publicPDFURLCloud (env : Env) (r : Report) : String :=
  env.baseURL ++ "/" ++ pdfStoragePath env r

/-- Text passed to the QR encoder by the Supabase variant (line 133). -/
def qrTextCloud (env : Env) (r : Report) : String :=
  publicReportURL env r ++ "|" ++ publicPDFURLCloud env r

/-- Model of generatePDF of the Supabase variant (server.js lines
62-143): photos come as public URLs fetched back (failures swallowed),
firmas come from the route as the two uploaded signature URLs, the QR
data URL is produced without style options and its generation is not
wrapped in any try, and the finished buffer is uploaded to the
informes bucket. Returns the operations, the returned public pdf URL
and the resulting storage state. -/
def generatePDFCloud (env : Env) (st : StorageState) (cur : RenderCursor)
    (r : Report) (fotos : List String) (firmaT firmaC : Option String) :
    Except String (List PDFOp × String × StorageState) :=
  let rGrid : Report := { r with fotos := fotos, firma_tecnico := firmaT, firma_cliente := firmaC }
  let bodyOps := headerOps env r ++ fieldsOps r ++ photoSection rGrid cur ++ sigSection rGrid cur
  match env.qrEnc (qrTextCloud env r) none with
  | .error e => .error e
  | .ok qrDataURL =>
    match dataURLPayload qrDataURL with
    | .error e => .error e
    | .ok qrBytes =>
      let ops := bodyOps ++ [PDFOp.imageW qrBytes (595 - 150) (842 - 120) 90 cur.sigPage]
      let up := uploadToStorage env.supabaseURL st "informes" (pdfStoragePath env r)
        (env.render ops) "application/pdf"
      .ok (ops, up.2, up.1)

-- ------------------------- REPOSITORY -------------------------

/-- Point lookup, SELECT * FROM reports WHERE id=?. -/
def dbGet (db : DB) (id : String) : Option Report :=
  db.find? (fun r => r.id == id)

/-- INSERT of a new row; id is the primary key, so a duplicate
identifier makes the statement throw. -/
def dbInsert (db : DB) (r : Report) : Except String DB :=
  if db.any (fun x => x.id == r.id) then
    .error "UNIQUE constraint failed: reports.id"
  else .ok (db ++ [r])

/-- UPDATE reports SET pdf_path=?, updated_at=? WHERE id=? of the
sqlite variant (part_000 line 255). -/
def dbUpdatePdf (db : DB) (id pdfPath now : String) : DB :=
  db.map (fun r =>
    if r.id == id then { r with pdf_path := some pdfPath, updated_at := now } else r)

/-- The Supabase update (server.js line 221) writes pdf_path only. -/
def dbUpdatePdfOnly (db : DB) (id pdfPath : String) : DB :=
  db.map (fun r =>
    if r.id == id then { r with pdf_path := some pdfPath } else r)

-- ------------------------- HTTP API -------------------------

/-- The JSON responses the report-creating routes can produce. The
Supabase variant sends no view_url, hence the option. -/
inductive HResp where
  | ok (id : String) (pdf_url : String) (view_url : Option String) : HResp
  | badRequest (errors : List String) : HResp
  | serverError (msg : String) : HResp
deriving DecidableEq, Repr

/-- The express-validator chain of the /api/reports route (part_000
lines 209-213): notEmpty on num_reporte, usuario and cliente. -/
def validateReports (b : ReqBody) : List String :=
  (if truthy b.num_reporte then [] else ["Número de reporte requerido"]) ++
  (if truthy b.usuario then [] else ["Usuario requerido"]) ++
  (if truthy b.cliente then [] else ["Cliente requerido"])

/-- Stored estado value: data.estado falls back to ENVIADO when falsy
(part_000 line 248 / server.js line 207). -/
def estadoValue (e : Option String) : String :=
  if truthy e then jsStr e else "ENVIADO"

/-- The row both handlers insert before rendering: form fields copied
verbatim, estado defaulted, pdf_path NULL. -/
def insertedRecord (id now : String) (b : ReqBody) (ft fc : Option String)
    (fotos anexos : List String) : Report :=
  { id := id, created_at := now, updated_at := now,
    num_reporte := b.num_reporte, usuario := b.usuario, cliente := b.cliente,
    telefono := b.telefono, tipo_equipo := b.tipo_equipo,
    tipo_servicio := b.tipo_servicio, diagnostico := b.diagnostico,
    trabajos := b.trabajos, observaciones := b.observaciones,
    estado := estadoValue b.estado, firma_tecnico := ft, firma_cliente := fc,
    fotos := fotos, anexos := anexos, pdf_path := none }

/-- Signature handling of the sqlite route (part_000 lines 223-231):
when the field is truthy, decode the data URL (throwing on a malformed
one) and write the png under /uploads. -/
def processSignature (fs : FS) (name : String) (field : Option String) :
    Except String (Option String × FS) :=
  if truthy field then
    match dataURLPayload (jsStr field) with
    | .error e => .error e
    | .ok bytes =>
      let p := "/uploads/" ++ name ++ ".png"
      .ok (some p, writeFile fs p bytes)
  else .ok (none, fs)

/-- Handler of POST /api/reports (part_000 lines 206-275). Takes the
generated uuid, the two Date().toISOString() values the handler draws,
the parsed body and files, and the pdfkit cursor values; returns the
response and the resulting reports table and filesystem. -/
def postReport (env : Env) (emb : Bool) (fs : FS) (db : DB)
    (id now now2 : String) (b : ReqBody)
    (filesFotos filesAnexos : List FileUpload) (cur : RenderCursor) :
    HResp × DB × FS :=
  let errs := validateReports b
  if errs.isEmpty then
    match processSignature fs ("firma_tecnico_" ++ id) b.firma_tecnico with
    | .error e => (.serverError e, db, fs)
    | .ok (ftPath, fs1) =>
      match processSignature fs1 ("firma_cliente_" ++ id) b.firma_cliente with
      | .error e => (.serverError e, db, fs1)
      | .ok (fcPath, fs2) =>
        let fotos := filesFotos.map (fun f => "/uploads/" ++ f.filename)
        let anexos := filesAnexos.map (fun f => "/uploads/" ++ f.filename)
        match dbInsert db (insertedRecord id now b ftPath fcPath fotos anexos) with
        | .error e => (.serverError e, db, fs2)
        | .ok db1 =>
          match dbGet db1 id with
          | none => (.serverError "report row missing", db1, fs2)
          | some report =>
            match generatePDF env emb fs2 cur report with
            | .error e => (.serverError e, db1, fs2)
            | .ok (_, pdfPath, fs3) =>
              let db2 := dbUpdatePdf db1 id pdfPath now2
              let okResp : HResp := .ok id (env.baseURL ++ pdfPath)
                (some (env.baseURL ++ "/public/report.html?id=" ++ id))
              if env.smtpConfigured then
                match env.sendMail with
                | .error e => (.serverError e, db2, fs3)
                | .ok _ => (okResp, db2, fs3)
              else (okResp, db2, fs3)
  else (.badRequest errs, db, fs)

/-- Signature handling of the Supabase route (server.js lines 170-176):
decode the data URL, then upload the png to the informes bucket and
keep its public URL. -/
def processSignatureCloud (env : Env) (st : StorageState) (name : String)
    (field : Option String) : Except String (Option String × StorageState) :=
  if truthy field then
    match dataURLPayload (jsStr field) with
    | .error e => .error e
    | .ok bytes =>
      let up := uploadToStorage env.supabaseURL st "informes"
        ("firmas/" ++ name ++ ".png") bytes "image/png"
      .ok (some up.2, up.1)
  else .ok (none, st)

/-- Uploading a list of files under one folder of the informes bucket
(server.js lines 179-190), returning the collected public URLs. -/
def uploadFiles (env : Env) (st : StorageState) (folder id : String)
    (files : List FileUpload) : StorageState × List String :=
  files.foldl (fun acc f =>
    let up := uploadToStorage env.supabaseURL acc.1 "informes"
      (folder ++ "/" ++ id ++ "_" ++ f.originalname) f.buffer f.mimetype
    (up.1, acc.2 ++ [up.2])) (st, [])

/-- Handler of POST /api/informes (server.js lines 160-241). The route
registers no express-validator chain, so validationResult(req) is
always empty and the 400 branch is unreachable. -/
def postInformes (env : Env) (st : StorageState) (db : DB)
    (id now : String) (b : ReqBody)
    (filesFotos filesAnexos : List FileUpload) (cur : RenderCursor) :
    HResp × DB × StorageState :=
  let errs : List String := []
  if errs.isEmpty then
    match processSignatureCloud env st (id ++ "_tecnico") b.firma_tecnico with
    | .error e => (.serverError e, db, st)
    | .ok (ftUrl, st1) =>
      match processSignatureCloud env st1 (id ++ "_cliente") b.firma_cliente with
      | .error e => (.serverError e, db, st1)
      | .ok (fcUrl, st2) =>
        let upF := uploadFiles env st2 "fotos" id filesFotos
        let upA := uploadFiles env upF.1 "anexos" id filesAnexos
        match dbInsert db (insertedRecord id now b ftUrl fcUrl upF.2 upA.2) with
        | .error e => (.serverError e, db, upA.1)
        | .ok db1 =>
          let report := insertedRecord id now b ftUrl fcUrl upF.2 upA.2
          match generatePDFCloud env upA.1 cur report upF.2 ftUrl fcUrl with
          | .error e => (.serverError e, db1, upA.1)
          | .ok (_, pdfUrl, st3) =>
            let db2 := dbUpdatePdfOnly db1 id pdfUrl
            if env.smtpConfigured then
              match env.sendMail with
              | .error e => (.serverError e, db2, st3)
              | .ok _ => (.ok id pdfUrl none, db2, st3)
            else (.ok id pdfUrl none, db2, st3)
  else (.badRequest errs, db, st)

/-- Response of the detail routes GET /api/reports/:id (part_000 lines
290-296) and GET /api/informes/:id (server.js lines 251-255): the row,
or a 404 when the identifier is unknown. -/
inductive DetailResp where
  | found (r : Report) : DetailResp
  | notFound : DetailResp
deriving DecidableEq, Repr

/-- Detail endpoint: point lookup by identifier. -/
def getReportDetail (db : DB) (id : String) : DetailResp :=
  match dbGet db id with
  | some r => .found r
  | none => .notFound

/-- Query string of the list route (part_000 line 279); absent
parameters are undefined, the empty string is falsy as well. -/
structure ListQuery where
  usuario : Option String
  estado : Option String
  desde : Option String
  hasta : Option String
deriving DecidableEq, Repr

/-- The WHERE clause built by GET /api/reports (part_000 lines
280-285): one equality or range condition per truthy parameter,
joined by AND. A NULL usuario column matches no equality filter. -/
def whereMatch (q : ListQuery) (r : Report) : Bool :=
  (!truthy q.usuario || r.usuario == some (jsStr q.usuario)) &&
  (!truthy q.estado || r.estado == jsStr q.estado) &&
  (!truthy q.desde || strLe (jsStr q.desde) r.created_at) &&
  (!truthy q.hasta || strLe r.created_at (jsStr q.hasta))

/-- Insertion into a list kept in descending created_at order. -/
def insertByCreated (r : Report) : List Report → List Report
  | [] => [r]
  | x :: xs =>
    if strLe r.created_at x.created_at then x :: insertByCreated r xs
    else r :: x :: xs

/-- ORDER BY created_at DESC. -/
def sortByCreatedDesc (l : List Report) : List Report :=
  l.foldr insertByCreated []

/-- GET /api/reports: filter by the WHERE clause, newest first. -/
def listReports (db : DB) (q : ListQuery) : List Report :=
  sortByCreatedDesc (db.filter (whereMatch q))

/-- GET /api/informes (server.js lines 244-248): the route reads no
query parameters at all; every row comes back, newest first. -/
def listInformes (db : DB) (_q : ListQuery) : List Report :=
  sortByCreatedDesc db

-- ------------------------- GRID LEMMAS (C5) -------------------------

/-- The advance rule of the photo grid as the specification claim
words it: x advances by 195 per image; x resets to 40 and y advances
by 160 when the next image's x plus its width 180 would exceed the
right margin 555; a new page starts with y = 60 when the next row's y
plus the image height 140 would exceed the bottom margin 740. -/
def gridAdvanceClaim (p : GridPos) : GridPos :=
  let x1 := p.x + 195
  let q : GridPos :=
    if x1 + 180 > 555 then { x := 40, y := p.y + 160, page := p.page }
    else { x := x1, y := p.y, page := p.page }
  if q.y + 140 > 740 then { x := q.x, y := 60, page := q.page + 1 } else q

theorem gridAdvance_eq_claim (p : GridPos) : gridAdvance p = gridAdvanceClaim p := by
  have hx : p.x + 180 + 15 = p.x + 195 := by omega
  have hy : p.y + 140 + 20 = p.y + 160 := by omega
  simp only [gridAdvance, gridAdvanceClaim, maxW, maxH, hx, hy]

theorem photoPlacements_length (fotos : List String) (p : GridPos) :
    (photoPlacements fotos p).length = fotos.length := by
  induction fotos generalizing p with
  | nil => rfl
  | cons f fs ih => simp [photoPlacements, ih]

theorem photoPlacements_get (fotos : List String) (p : GridPos) (i : Nat) :
    (photoPlacements fotos p)[i]? =
      (fotos[i]?).map (fun f => (f, gridAdvance^[i] p)) := by
  induction fotos generalizing p i with
  | nil => simp [photoPlacements]
  | cons f fs ih =>
    cases i with
    | zero => simp [photoPlacements]
    | succ n => simp [photoPlacements, ih, Function.iterate_succ_apply]

-- ------------------------- LIST LEMMAS (C6) -------------------------

theorem mem_insertByCreated (a r : Report) (l : List Report) :
    a ∈ insertByCreated r l ↔ a = r ∨ a ∈ l := by
  induction l with
  | nil => simp [insertByCreated]
  | cons x xs ih =>
    simp only [insertByCreated]
    split
    · rw [List.mem_cons, ih, List.mem_cons]
      tauto
    · simp only [List.mem_cons]

theorem mem_sortByCreatedDesc (a : Report) (l : List Report) :
    a ∈ sortByCreatedDesc l ↔ a ∈ l := by
  induction l with
  | nil => simp [sortByCreatedDesc]
  | cons x xs ih =>
    simp only [sortByCreatedDesc, List.foldr_cons] at *
    rw [mem_insertByCreated, ih, List.mem_cons]

-- ------------------------- REPOSITORY LEMMAS -------------------------

theorem dbGet_append_right (db : DB) (rec : Report) (id : String)
    (hfresh : ∀ r ∈ db, r.id ≠ id) (hid : rec.id = id) :
    dbGet (db ++ [rec]) id = some rec := by
  induction db with
  | nil => simp [dbGet, List.find?, hid]
  | cons x xs ih =>
    have hx : (x.id == id) = false := by
      simpa using hfresh x (by simp)
    simp only [dbGet, List.cons_append, List.find?_cons, hx] at ih ⊢
    exact ih (fun r hr => hfresh r (by simp [hr]))

theorem dbGet_updatePdf (db : DB) (id p t : String) :
    dbGet (dbUpdatePdf db id p t) id =
      (dbGet db id).map (fun r => { r with pdf_path := some p, updated_at := t }) := by
  induction db with
  | nil => rfl
  | cons x xs ih =>
    by_cases hx : x.id = id
    · simp [dbGet, dbUpdatePdf, List.find?_cons, hx]
    · have hx' : (x.id == id) = false := by simpa using hx
      simp only [dbGet, dbUpdatePdf, List.map_cons, List.find?_cons, hx, hx',
        if_neg hx] at ih ⊢
      simpa [hx'] using ih

theorem dbGet_updatePdfOnly (db : DB) (id p : String) :
    dbGet (dbUpdatePdfOnly db id p) id =
      (dbGet db id).map (fun r => { r with pdf_path := some p }) := by
  induction db with
  | nil => rfl
  | cons x xs ih =>
    by_cases hx : x.id = id
    · simp [dbGet, dbUpdatePdfOnly, List.find?_cons, hx]
    · have hx' : (x.id == id) = false := by simpa using hx
      simp only [dbGet, dbUpdatePdfOnly, List.map_cons, List.find?_cons, hx, hx',
        if_neg hx] at ih ⊢
      simpa [hx'] using ih

theorem dbGet_update_insert (db : DB) (rec : Report) (id p t : String)
    (hfresh : ∀ r ∈ db, r.id ≠ id) (hid : rec.id = id) :
    dbGet (dbUpdatePdf (db ++ [rec]) id p t) id =
      some { rec with pdf_path := some p, updated_at := t } := by
  rw [dbGet_updatePdf, dbGet_append_right db rec id hfresh hid]
  rfl

theorem dbGetOnly_update_insert (db : DB) (rec : Report) (id p : String)
    (hfresh : ∀ r ∈ db, r.id ≠ id) (hid : rec.id = id) :
    dbGet (dbUpdatePdfOnly (db ++ [rec]) id p) id =
      some { rec with pdf_path := some p } := by
  rw [dbGet_updatePdfOnly, dbGet_append_right db rec id hfresh hid]
  rfl

theorem dbInsert_fresh (db : DB) (rec : Report)
    (hfresh : ∀ r ∈ db, r.id ≠ rec.id) :
    dbInsert db rec = .ok (db ++ [rec]) := by
  unfold dbInsert
  rw [if_neg]
  simp only [List.any_eq_true, beq_iff_eq, not_exists, not_and]
  exact fun x hx => hfresh x hx

theorem dbInsert_ok_fresh (db : DB) (rec : Report) (db1 : DB)
    (h : dbInsert db rec = .ok db1) :
    db1 = db ++ [rec] ∧ ∀ r ∈ db, r.id ≠ rec.id := by
  unfold dbInsert at h
  split at h
  · exact absurd h (by simp)
  · refine ⟨by injection h with h1; exact h1.symm, ?_⟩
    intro r hr hrid
    rename_i hany
    exact hany (by simp only [List.any_eq_true, beq_iff_eq]; exact ⟨r, hr, hrid⟩)

-- ------------------------- HANDLER SHAPE LEMMAS -------------------------

theorem postReport_ok_shape (env : Env) (emb : Bool) (fs : FS) (db : DB)
    (id now now2 : String) (b : ReqBody) (ff fa : List FileUpload)
    (cur : RenderCursor) (rid purl : String) (vurl : Option String)
    (hok : (postReport env emb fs db id now now2 b ff fa cur).1 = .ok rid purl vurl) :
    rid = id ∧
    ∃ ft fc pdfPath,
      (postReport env emb fs db id now now2 b ff fa cur).2.1 =
        dbUpdatePdf (db ++ [insertedRecord id now b ft fc
          (ff.map (fun f => "/uploads/" ++ f.filename))
          (fa.map (fun f => "/uploads/" ++ f.filename))]) id pdfPath now2 ∧
      (∀ r ∈ db, r.id ≠ id) := by
  by_cases hv : (validateReports b).isEmpty = true
  case neg =>
    simp only [postReport, hv] at hok
    simp at hok
  case pos =>
  cases h1 : processSignature fs ("firma_tecnico_" ++ id) b.firma_tecnico with
  | error e => simp only [postReport, hv, h1] at hok; simp at hok
  | ok pr1 =>
  obtain ⟨ft, fs1⟩ := pr1
  cases h2 : processSignature fs1 ("firma_cliente_" ++ id) b.firma_cliente with
  | error e => simp only [postReport, hv, h1, h2] at hok; simp at hok
  | ok pr2 =>
  obtain ⟨fc, fs2⟩ := pr2
  cases hins : dbInsert db (insertedRecord id now b ft fc
      (ff.map (fun f => "/uploads/" ++ f.filename))
      (fa.map (fun f => "/uploads/" ++ f.filename))) with
  | error e => simp only [postReport, hv, h1, h2, hins] at hok; simp at hok
  | ok db1 =>
  obtain ⟨hdb1, hfresh⟩ := dbInsert_ok_fresh _ _ _ hins
  have hfresh' : ∀ r ∈ db, r.id ≠ id := hfresh
  have hget : dbGet db1 id = some (insertedRecord id now b ft fc
      (ff.map (fun f => "/uploads/" ++ f.filename))
      (fa.map (fun f => "/uploads/" ++ f.filename))) := by
    rw [hdb1]
    exact dbGet_append_right db _ id hfresh' rfl
  cases hpdf : generatePDF env emb fs2 cur (insertedRecord id now b ft fc
      (ff.map (fun f => "/uploads/" ++ f.filename))
      (fa.map (fun f => "/uploads/" ++ f.filename))) with
  | error e => simp only [postReport, hv, h1, h2, hins, hget, hpdf] at hok; simp at hok
  | ok out =>
  obtain ⟨ops, pdfPath, fs3⟩ := out
  by_cases hs : env.smtpConfigured = true
  · cases hm : env.sendMail with
    | error e =>
      simp only [postReport, hv, h1, h2, hins, hget, hpdf, hs, hm] at hok
      simp at hok
    | ok u =>
      simp only [postReport, hv, h1, h2, hins, hget, hpdf, hs, hm] at hok
      obtain ⟨hrid, -, -⟩ := HResp.ok.inj hok.symm
      refine ⟨hrid.symm ▸ rfl, ft, fc, pdfPath, ?_, hfresh'⟩
      have hget2 := dbGet_append_right db (insertedRecord id now b ft fc
        (ff.map (fun f => "/uploads/" ++ f.filename))
        (fa.map (fun f => "/uploads/" ++ f.filename))) id hfresh' rfl
      simp [postReport, hv, h1, h2, hins, hdb1, hget2, hpdf, hs, hm]
  · simp only [Bool.not_eq_true] at hs
    simp only [postReport, hv, h1, h2, hins, hget, hpdf, hs] at hok
    obtain ⟨hrid, -, -⟩ := HResp.ok.inj hok.symm
    refine ⟨hrid.symm ▸ rfl, ft, fc, pdfPath, ?_, hfresh'⟩
    have hget2 := dbGet_append_right db (insertedRecord id now b ft fc
      (ff.map (fun f => "/uploads/" ++ f.filename))
      (fa.map (fun f => "/uploads/" ++ f.filename))) id hfresh' rfl
    simp [postReport, hv, h1, h2, hins, hdb1, hget2, hpdf, hs]

theorem postInformes_ok_shape (env : Env) (st : StorageState) (db : DB)
    (id now : String) (b : ReqBody) (ff fa : List FileUpload)
    (cur : RenderCursor) (rid purl : String) (vurl : Option String)
    (hok : (postInformes env st db id now b ff fa cur).1 = .ok rid purl vurl) :
    rid = id ∧
    ∃ ft fc fotos anexos pdfUrl,
      (postInformes env st db id now b ff fa cur).2.1 =
        dbUpdatePdfOnly (db ++ [insertedRecord id now b ft fc fotos anexos]) id pdfUrl ∧
      (∀ r ∈ db, r.id ≠ id) := by
  cases h1 : processSignatureCloud env st (id ++ "_tecnico") b.firma_tecnico with
  | error e => simp only [postInformes, h1] at hok; simp at hok
  | ok pr1 =>
  obtain ⟨ft, st1⟩ := pr1
  cases h2 : processSignatureCloud env st1 (id ++ "_cliente") b.firma_cliente with
  | error e => simp only [postInformes, h1, h2] at hok; simp at hok
  | ok pr2 =>
  obtain ⟨fc, st2⟩ := pr2
  cases hins : dbInsert db (insertedRecord id now b ft fc
      (uploadFiles env st2 "fotos" id ff).2
      (uploadFiles env (uploadFiles env st2 "fotos" id ff).1 "anexos" id fa).2) with
  | error e => simp only [postInformes, h1, h2, hins] at hok; simp at hok
  | ok db1 =>
  obtain ⟨hdb1, hfresh⟩ := dbInsert_ok_fresh _ _ _ hins
  have hfresh' : ∀ r ∈ db, r.id ≠ id := hfresh
  cases hpdf : generatePDFCloud env
      (uploadFiles env (uploadFiles env st2 "fotos" id ff).1 "anexos" id fa).1 cur
      (insertedRecord id now b ft fc
        (uploadFiles env st2 "fotos" id ff).2
        (uploadFiles env (uploadFiles env st2 "fotos" id ff).1 "anexos" id fa).2)
      (uploadFiles env st2 "fotos" id ff).2 ft fc with
  | error e => simp only [postInformes, h1, h2, hins, hpdf] at hok; simp at hok
  | ok out =>
  obtain ⟨ops, pdfUrl, st3⟩ := out
  by_cases hs : env.smtpConfigured = true
  · cases hm : env.sendMail with
    | error e =>
      simp only [postInformes, h1, h2, hins, hpdf, hs, hm] at hok
      simp at hok
    | ok u =>
      simp only [postInformes, h1, h2, hins, hpdf, hs, hm] at hok
      obtain ⟨hrid, -, -⟩ := HResp.ok.inj hok.symm
      refine ⟨hrid.symm ▸ rfl, ft, fc, (uploadFiles env st2 "fotos" id ff).2,
        (uploadFiles env (uploadFiles env st2 "fotos" id ff).1 "anexos" id fa).2,
        pdfUrl, ?_, hfresh'⟩
      simp [postInformes, h1, h2, hins, hdb1, hpdf, hs, hm]
  · simp only [Bool.not_eq_true] at hs
    simp only [postInformes, h1, h2, hins, hpdf, hs] at hok
    obtain ⟨hrid, -, -⟩ := HResp.ok.inj hok.symm
    refine ⟨hrid.symm ▸ rfl, ft, fc, (uploadFiles env st2 "fotos" id ff).2,
        (uploadFiles env (uploadFiles env st2 "fotos" id ff).1 "anexos" id fa).2,
        pdfUrl, ?_, hfresh'⟩
    simp [postInformes, h1, h2, hins, hdb1, hpdf, hs]

-- ------------------------- CONCRETE FIXTURES -------------------------

/-- Empty filesystem. -/
def fs0 : FS := fun _ => none

/-- Empty object storage. -/
def st0 : StorageState := fun _ => none

/-- Concrete pdfkit cursor values for the sample runs. -/
def cur0 : RenderCursor :=
  { photosY := 500, photosPage := 0, sigY := 600, sigPage := 0 }

/-- Sample environment: QR encoding succeeds with a well-formed data
URL, SMTP is not configured. -/
def envW : Env :=
  { baseURL := "B", appName := "A", supabaseURL := "S", today := "D",
    toLocale := fun s => s, render := fun _ => "PDF",
    qrEnc := fun _ _ => .ok "data:image/png;base64,QRDATA",
    smtpConfigured := false, sendMail := .ok () }

/-- Sample environment with SMTP configured and a failing transporter. -/
def envSMTPFail : Env :=
  { envW with smtpConfigured := true, sendMail := .error "ECONNREFUSED" }

/-- Sample environment whose QR encoder throws. -/
def envQRFail : Env :=
  { envW with qrEnc := fun _ _ => .error "qr generation failed" }

/-- A valid minimal submission body. -/
def bodyValid : ReqBody :=
  { num_reporte := some "R1", usuario := some "u", cliente := some "c",
    telefono := none, tipo_equipo := none, tipo_servicio := none,
    diagnostico := none, trabajos := none, observaciones := none,
    estado := none, firma_tecnico := none, firma_cliente := none }

/-- The same body with the required num_reporte absent. -/
def bodyNoNum : ReqBody := { bodyValid with num_reporte := none }

/-- The same body with a malformed comma-free signature data URL. -/
def bodyBadSig : ReqBody :=
  { bodyValid with firma_tecnico := some "data:image/png;base64AAAA" }

/-- A concrete report row for renderer-level witnesses. -/
def recW : Report := insertedRecord "i" "t" bodyValid none none [] []

/-- A stored row whose submitter is b. -/
def recUserB : Report :=
  { insertedRecord "1" "t" bodyValid none none [] [] with usuario := some "b" }

-- ------------------------- VALUE LEMMAS -------------------------

theorem estadoValue_pendiente_iff (e : Option String) :
    estadoValue e = "PENDIENTE" ↔ e = some "PENDIENTE" := by
  cases e with
  | none => simp [estadoValue, truthy]
  | some s =>
    by_cases h : s = ""
    · subst h; simp [estadoValue, truthy, jsStr]
    · simp [estadoValue, truthy, h, jsStr]

/-- Detecting a truthy signature field whose data URL has no comma. -/
def malformedSig : Option String → Bool
  | none => false
  | some s => !(s == "") && s.toList.all (fun c => !(c = ','))

theorem processSignature_malformed (fs : FS) (name : String) (f : Option String)
    (h : malformedSig f = true) :
    processSignature fs name f =
      .error "TypeError: first argument must be of type string" := by
  cases f with
  | none => simp [malformedSig] at h
  | some s =>
    simp only [malformedSig, Bool.and_eq_true, List.all_eq_true] at h
    obtain ⟨hne, hall⟩ := h
    have hmem : ',' ∉ s.toList := fun hm => by simpa using hall _ hm
    have htr : truthy (some s) = true := by simpa [truthy] using hne
    simp [processSignature, htr, jsStr, dataURLPayload_no_comma s hmem]

theorem processSignatureCloud_malformed (env : Env) (st : StorageState)
    (name : String) (f : Option String) (h : malformedSig f = true) :
    processSignatureCloud env st name f =
      .error "TypeError: first argument must be of type string" := by
  cases f with
  | none => simp [malformedSig] at h
  | some s =>
    simp only [malformedSig, Bool.and_eq_true, List.all_eq_true] at h
    obtain ⟨hne, hall⟩ := h
    have hmem : ',' ∉ s.toList := fun hm => by simpa using hall _ hm
    have htr : truthy (some s) = true := by simpa [truthy] using hne
    simp [processSignatureCloud, htr, jsStr, dataURLPayload_no_comma s hmem]

-- ------------------------- CLAIM THEOREMS -------------------------

/-- C1: for every submission that completes successfully (the POST
report endpoint responds ok with an identifier), fetching the detail
endpoint with that identifier returns a record whose identifier equals
the returned one and whose pdf_path is non-null; shown for both the
/api/reports (sqlite) and the /api/informes (Supabase) variant. -/
theorem C1_post_ok_detail_has_pdf (env : Env) (emb : Bool) (fs : FS)
    (st : StorageState) (db dbI : DB) (id now now2 idI nowI : String)
    (b bI : ReqBody) (ff fa ffI faI : List FileUpload) (cur curI : RenderCursor)
    (rid purl ridI purlI : String) (vurl vurlI : Option String) :
    ((postReport env emb fs db id now now2 b ff fa cur).1 = .ok rid purl vurl →
      rid = id ∧ ∃ r,
        getReportDetail (postReport env emb fs db id now now2 b ff fa cur).2.1 rid = .found r ∧
        r.id = rid ∧ r.pdf_path ≠ none) ∧
    ((postInformes env st dbI idI nowI bI ffI faI curI).1 = .ok ridI purlI vurlI →
      ridI = idI ∧ ∃ r,
        getReportDetail (postInformes env st dbI idI nowI bI ffI faI curI).2.1 ridI = .found r ∧
        r.id = ridI ∧ r.pdf_path ≠ none) := by
  constructor
  · intro hok
    obtain ⟨hrid, ft, fc, pdfPath, hdb, hfresh⟩ :=
      postReport_ok_shape env emb fs db id now now2 b ff fa cur rid purl vurl hok
    have hlook : dbGet (postReport env emb fs db id now now2 b ff fa cur).2.1 id =
        some { insertedRecord id now b ft fc
            (ff.map (fun f => "/uploads/" ++ f.filename))
            (fa.map (fun f => "/uploads/" ++ f.filename)) with
          pdf_path := some pdfPath, updated_at := now2 } := by
      rw [hdb]
      exact dbGet_update_insert _ _ _ _ _ hfresh rfl
    refine ⟨hrid, ?_⟩
    rw [hrid, getReportDetail, hlook]
    exact ⟨_, rfl, rfl, by simp⟩
  · intro hok
    obtain ⟨hrid, ft, fc, fotos, anexos, pdfUrl, hdb, hfresh⟩ :=
      postInformes_ok_shape env st dbI idI nowI bI ffI faI curI ridI purlI vurlI hok
    have hlook : dbGet (postInformes env st dbI idI nowI bI ffI faI curI).2.1 idI =
        some { insertedRecord idI nowI bI ft fc fotos anexos with
          pdf_path := some pdfUrl } := by
      rw [hdb]
      exact dbGetOnly_update_insert _ _ _ _ hfresh rfl
    refine ⟨hrid, ?_⟩
    rw [hrid, getReportDetail, hlook]
    exact ⟨_, rfl, rfl, by simp⟩

/-- C1 witness: a concrete successful submission on each variant,
followed by the detail lookup. -/
theorem C1_post_ok_detail_has_pdf_witness :
    (∃ r, getReportDetail
        (postReport envW true fs0 [] "i" "t" "t2" bodyValid [] [] cur0).2.1 "i" = .found r ∧
      r.id = "i" ∧ r.pdf_path ≠ none) ∧
    (∃ r, getReportDetail
        (postInformes envW st0 [] "i" "t" bodyValid [] [] cur0).2.1 "i" = .found r ∧
      r.id = "i" ∧ r.pdf_path ≠ none) :=
  ⟨((C1_post_ok_detail_has_pdf envW true fs0 st0 [] [] "i" "t" "t2" "i" "t"
      bodyValid bodyValid [] [] [] [] cur0 cur0
      "i" "B/uploads/Reporte_R1_u_t.pdf"
      "i" "S/storage/v1/object/public/informes/pdfs/i/Reporte_R1_u_D.pdf"
      (some "B/public/report.html?id=i") none).1 rfl).2,
   ((C1_post_ok_detail_has_pdf envW true fs0 st0 [] [] "i" "t" "t2" "i" "t"
      bodyValid bodyValid [] [] [] [] cur0 cur0
      "i" "B/uploads/Reporte_R1_u_t.pdf"
      "i" "S/storage/v1/object/public/informes/pdfs/i/Reporte_R1_u_D.pdf"
      (some "B/public/report.html?id=i") none).2 rfl).2⟩

/-- C2 counterexample: on the /api/informes route no validator chain is
registered, so a submission with num_reporte absent does not get a 400;
it is accepted and inserted (one record is created). -/
theorem C2_informes_no_validation_counterexample :
    (postInformes envW st0 [] "i" "t" bodyNoNum [] [] cur0).1 =
      .ok "i" "S/storage/v1/object/public/informes/pdfs/i/Reporte_null_u_D.pdf" none ∧
    (postInformes envW st0 [] "i" "t" bodyNoNum [] [] cur0).2.1.length = 1 :=
  ⟨rfl, rfl⟩

/-- C2 (amended): on the /api/reports route, a submission missing any
of num_reporte, usuario or cliente yields a 400 with a non-empty
validation-errors array and leaves the table unchanged; the
/api/informes route registers no validators and never responds 400. -/
theorem C2_missing_required_field (env : Env) (emb : Bool) (fs : FS)
    (st : StorageState) (db dbI : DB) (id now now2 idI nowI : String)
    (b bI : ReqBody) (ff fa ffI faI : List FileUpload) (cur curI : RenderCursor)
    (errs : List String) :
    ((truthy b.num_reporte = false ∨ truthy b.usuario = false ∨ truthy b.cliente = false) →
      validateReports b ≠ [] ∧
      (postReport env emb fs db id now now2 b ff fa cur).1 = .badRequest (validateReports b) ∧
      (postReport env emb fs db id now now2 b ff fa cur).2.1 = db) ∧
    (postInformes env st dbI idI nowI bI ffI faI curI).1 ≠ .badRequest errs := by
  constructor
  · intro hmiss
    have hval : validateReports b ≠ [] := by
      rcases hmiss with h | h | h <;> simp [validateReports, h]
    have hne : ¬ (validateReports b).isEmpty = true := by
      simpa [List.isEmpty_iff] using hval
    refine ⟨hval, ?_, ?_⟩ <;> simp [postReport, hne]
  · intro hbad
    simp only [postInformes, List.isEmpty_nil, if_true] at hbad
    repeat' split at hbad
    all_goals simp at hbad

/-- C2 witness: a concrete submission missing num_reporte is rejected
with a 400 and the table stays empty. -/
theorem C2_missing_required_field_witness :
    validateReports bodyNoNum ≠ [] ∧
    (postReport envW true fs0 [] "i" "t" "t2" bodyNoNum [] [] cur0).1 =
      .badRequest (validateReports bodyNoNum) ∧
    (postReport envW true fs0 [] "i" "t" "t2" bodyNoNum [] [] cur0).2.1 = [] :=
  (C2_missing_required_field envW true fs0 st0 [] [] "i" "t" "t2" "i" "t"
    bodyNoNum bodyValid [] [] [] [] cur0 cur0 []).1 (Or.inl rfl)

/-- C3 counterexample: concrete submissions on which the insert and
the document-reference update both succeeded (the final table holds
the record with its non-null pdf_path) but the configured transporter
throws; on both variants the client receives a 500, not the success
response. -/
theorem C3_sendmail_changes_response_counterexample :
    (postReport envSMTPFail true fs0 [] "i" "t" "t2" bodyValid [] [] cur0).1 =
      .serverError "ECONNREFUSED" ∧
    (postReport envSMTPFail true fs0 [] "i" "t" "t2" bodyValid [] [] cur0).2.1.map
      (fun r => r.pdf_path) = [some "/uploads/Reporte_R1_u_t.pdf"] ∧
    (postInformes envSMTPFail st0 [] "i" "t" bodyValid [] [] cur0).1 =
      .serverError "ECONNREFUSED" ∧
    (postInformes envSMTPFail st0 [] "i" "t" bodyValid [] [] cur0).2.1.map
      (fun r => r.pdf_path) =
      [some "S/storage/v1/object/public/informes/pdfs/i/Reporte_R1_u_D.pdf"] :=
  ⟨rfl, rfl, rfl, rfl⟩

/-- C3 (amended): sendMail is awaited inside the try block before the
success response is sent in both variants, so when SMTP is configured
and the transporter throws, the client receives a 500 with the
transporter's message even though the insert and the
document-reference update already succeeded; the record stays
persisted with its non-null pdf_path. -/
theorem C3_sendmail_failure_500 (env : Env) :
    (∀ (emb : Bool) (fs fs1 fs2 fs3 : FS) (db : DB) (id now now2 : String)
      (b : ReqBody) (ff fa : List FileUpload) (cur : RenderCursor)
      (ft fc : Option String) (ops : List PDFOp) (pdfPath e : String),
      (validateReports b).isEmpty = true →
      processSignature fs ("firma_tecnico_" ++ id) b.firma_tecnico = .ok (ft, fs1) →
      processSignature fs1 ("firma_cliente_" ++ id) b.firma_cliente = .ok (fc, fs2) →
      (∀ r ∈ db, r.id ≠ id) →
      generatePDF env emb fs2 cur (insertedRecord id now b ft fc
        (ff.map (fun f => "/uploads/" ++ f.filename))
        (fa.map (fun f => "/uploads/" ++ f.filename))) = .ok (ops, pdfPath, fs3) →
      env.smtpConfigured = true → env.sendMail = .error e →
      (postReport env emb fs db id now now2 b ff fa cur).1 = .serverError e ∧
      dbGet (postReport env emb fs db id now now2 b ff fa cur).2.1 id =
        some { insertedRecord id now b ft fc
            (ff.map (fun f => "/uploads/" ++ f.filename))
            (fa.map (fun f => "/uploads/" ++ f.filename)) with
          pdf_path := some pdfPath, updated_at := now2 }) ∧
    (∀ (st st1 st2 st3 : StorageState) (db : DB) (id now : String)
      (b : ReqBody) (ff fa : List FileUpload) (cur : RenderCursor)
      (ft fc : Option String) (ops : List PDFOp) (pdfUrl e : String),
      processSignatureCloud env st (id ++ "_tecnico") b.firma_tecnico = .ok (ft, st1) →
      processSignatureCloud env st1 (id ++ "_cliente") b.firma_cliente = .ok (fc, st2) →
      (∀ r ∈ db, r.id ≠ id) →
      generatePDFCloud env
        (uploadFiles env (uploadFiles env st2 "fotos" id ff).1 "anexos" id fa).1
        cur (insertedRecord id now b ft fc
          (uploadFiles env st2 "fotos" id ff).2
          (uploadFiles env (uploadFiles env st2 "fotos" id ff).1 "anexos" id fa).2)
        (uploadFiles env st2 "fotos" id ff).2 ft fc = .ok (ops, pdfUrl, st3) →
      env.smtpConfigured = true → env.sendMail = .error e →
      (postInformes env st db id now b ff fa cur).1 = .serverError e ∧
      dbGet (postInformes env st db id now b ff fa cur).2.1 id =
        some { insertedRecord id now b ft fc
            (uploadFiles env st2 "fotos" id ff).2
            (uploadFiles env (uploadFiles env st2 "fotos" id ff).1 "anexos" id fa).2 with
          pdf_path := some pdfUrl }) := by
  constructor
  · intro emb fs fs1 fs2 fs3 db id now now2 b ff fa cur ft fc ops pdfPath e
      hv h1 h2 hfresh hpdf hs hm
    have hins := dbInsert_fresh db (insertedRecord id now b ft fc
        (ff.map (fun f => "/uploads/" ++ f.filename))
        (fa.map (fun f => "/uploads/" ++ f.filename))) (fun r hr => hfresh r hr)
    have hget2 := dbGet_append_right db (insertedRecord id now b ft fc
        (ff.map (fun f => "/uploads/" ++ f.filename))
        (fa.map (fun f => "/uploads/" ++ f.filename))) id hfresh rfl
    have hstate : (postReport env emb fs db id now now2 b ff fa cur).2.1 =
        dbUpdatePdf (db ++ [insertedRecord id now b ft fc
          (ff.map (fun f => "/uploads/" ++ f.filename))
          (fa.map (fun f => "/uploads/" ++ f.filename))]) id pdfPath now2 := by
      simp [postReport, hv, h1, h2, hins, hget2, hpdf, hs, hm]
    refine ⟨?_, ?_⟩
    · simp [postReport, hv, h1, h2, hins, hget2, hpdf, hs, hm]
    · rw [hstate]
      exact dbGet_update_insert _ _ _ _ _ hfresh rfl
  · intro st st1 st2 st3 db id now b ff fa cur ft fc ops pdfUrl e
      h1 h2 hfresh hpdf hs hm
    have hins := dbInsert_fresh db (insertedRecord id now b ft fc
        (uploadFiles env st2 "fotos" id ff).2
        (uploadFiles env (uploadFiles env st2 "fotos" id ff).1 "anexos" id fa).2)
      (fun r hr => hfresh r hr)
    have hstate : (postInformes env st db id now b ff fa cur).2.1 =
        dbUpdatePdfOnly (db ++ [insertedRecord id now b ft fc
          (uploadFiles env st2 "fotos" id ff).2
          (uploadFiles env (uploadFiles env st2 "fotos" id ff).1 "anexos" id fa).2])
          id pdfUrl := by
      simp [postInformes, h1, h2, hins, hpdf, hs, hm]
    refine ⟨?_, ?_⟩
    · simp [postInformes, h1, h2, hins, hpdf, hs, hm]
    · rw [hstate]
      exact dbGetOnly_update_insert _ _ _ _ hfresh rfl

/-- C3 witness: the amended theorem applied at concrete
failing-transporter runs of both routes. -/
theorem C3_sendmail_failure_500_witness :
    (postReport envSMTPFail true fs0 [] "i" "t" "t2" bodyValid [] [] cur0).1 =
      .serverError "ECONNREFUSED" ∧
    (postInformes envSMTPFail st0 [] "i" "t" bodyValid [] [] cur0).1 =
      .serverError "ECONNREFUSED" :=
  ⟨((C3_sendmail_failure_500 envSMTPFail).1 true fs0 fs0 fs0 _ [] "i" "t" "t2"
      bodyValid [] [] cur0 none none _ "/uploads/Reporte_R1_u_t.pdf" "ECONNREFUSED"
      rfl rfl rfl (by simp) rfl rfl rfl).1,
   ((C3_sendmail_failure_500 envSMTPFail).2 st0 st0 st0 _ [] "i" "t"
      bodyValid [] [] cur0 none none _
      "S/storage/v1/object/public/informes/pdfs/i/Reporte_R1_u_D.pdf" "ECONNREFUSED"
      rfl rfl (by simp) rfl rfl rfl).1⟩

/-- C4 counterexample: when QRCode.toDataURL throws, generatePDF
propagates the error instead of producing a document: that call is not
inside any try block (part_000 line 170, server.js line 133). Shown on
a concrete report for both variants. -/
theorem C4_qr_failure_aborts_counterexample :
    generatePDF envQRFail true fs0 cur0 recW = .error "qr generation failed" ∧
    generatePDFCloud envQRFail st0 cur0 recW [] none none =
      .error "qr generation failed" :=
  ⟨rfl, rfl⟩

/-- C4 (amended): a failure of QR data-URL generation is not swallowed:
it propagates out of generatePDF and aborts document production (both
variants). Only the final embedding of the already generated QR image
into the page is wrapped in a try block in the sqlite variant, so once
the QR data URL is produced the document is returned whether or not
that embedding step succeeds. -/
theorem C4_qr_generation_propagates (env : Env) (fs : FS)
    (st : StorageState) (cur : RenderCursor) (r : Report)
    (fotos : List String) (firmaT firmaC : Option String) :
    (∀ e emb, env.qrEnc (qrTextLocal env r) (some qrOptionsLocal) = .error e →
      generatePDF env emb fs cur r = .error e) ∧
    (∀ e, env.qrEnc (qrTextCloud env r) none = .error e →
      generatePDFCloud env st cur r fotos firmaT firmaC = .error e) ∧
    (∀ durl payload emb,
      env.qrEnc (qrTextLocal env r) (some qrOptionsLocal) = .ok durl →
      dataURLPayload durl = .ok payload →
      ∃ ops fs2, generatePDF env emb fs cur r =
        .ok (ops, "/uploads/" ++ pdfFileNameLocal r, fs2)) := by
  refine ⟨?_, ?_, ?_⟩
  · intro e emb h
    unfold generatePDF
    rw [h]
  · intro e h
    unfold generatePDFCloud
    rw [h]
  · intro durl payload emb h1 h2
    simp only [generatePDF, h1, h2]
    exact ⟨_, _, rfl⟩

/-- C4 witness: the amended theorem applied at the failing and at the
succeeding concrete QR encoder. -/
theorem C4_qr_generation_propagates_witness :
    generatePDF envQRFail false fs0 cur0 recW = .error "qr generation failed" ∧
    generatePDFCloud envQRFail st0 cur0 recW [] none none =
      .error "qr generation failed" ∧
    ∃ ops fs2, generatePDF envW true fs0 cur0 recW =
      .ok (ops, "/uploads/" ++ pdfFileNameLocal recW, fs2) :=
  ⟨(C4_qr_generation_propagates envQRFail fs0 st0 cur0 recW [] none none).1
      "qr generation failed" false rfl,
   (C4_qr_generation_propagates envQRFail fs0 st0 cur0 recW [] none none).2.1
      "qr generation failed" rfl,
   (C4_qr_generation_propagates envW fs0 st0 cur0 recW [] none none).2.2
      "data:image/png;base64,QRDATA" "QRDATA" true rfl rfl⟩

/-- C5: for every non-empty ordered photo list the renderer places each
image in a fixed 180 by 140 bounding box; the first image sits at
x = 40 at the grid's starting cursor; and each later placement follows
from the previous one by the claimed rule: x advances by 195, wraps to
x = 40 advancing y by 160 when the next x plus the width would exceed
555, and a new page starts at y = 60 when the next y plus the height
would exceed 740. -/
theorem C5_photo_grid_layout (fotos : List String) (y0 pg : Nat)
    (_hne : fotos ≠ []) :
    (photoOps fotos { x := 40, y := y0, page := pg }).length = fotos.length ∧
    photoOps fotos { x := 40, y := y0, page := pg } =
      (photoPlacements fotos { x := 40, y := y0, page := pg }).map
        (fun pr => .imageFit pr.1 pr.2.x pr.2.y 180 140 pr.2.page) ∧
    (photoPlacements fotos { x := 40, y := y0, page := pg })[0]? =
      fotos[0]?.map (fun f => (f, ({ x := 40, y := y0, page := pg } : GridPos))) ∧
    ∀ i, i + 1 < fotos.length →
      ((photoPlacements fotos { x := 40, y := y0, page := pg })[i+1]?).map Prod.snd =
        (((photoPlacements fotos { x := 40, y := y0, page := pg })[i]?).map Prod.snd).map
          gridAdvanceClaim := by
  refine ⟨?_, rfl, ?_, ?_⟩
  · rw [photoOps, List.length_map, photoPlacements_length]
  · rw [photoPlacements_get]
    rfl
  · intro i hi
    have hi' : i < fotos.length := by omega
    rw [photoPlacements_get, photoPlacements_get,
      List.getElem?_eq_getElem hi, List.getElem?_eq_getElem hi']
    simp [Function.iterate_succ_apply', gridAdvance_eq_claim]

/-- C5 witness: the layout theorem applied to a concrete four-photo
list; with the bounding box 180 wide and x advancing by 195 from 40,
the fourth photo wraps to the second row. -/
theorem C5_photo_grid_layout_witness :
    (photoOps ["f1", "f2", "f3", "f4"] { x := 40, y := 500, page := 0 }).length = 4 ∧
    (photoPlacements ["f1", "f2", "f3", "f4"] { x := 40, y := 500, page := 0 })[0]? =
      some ("f1", { x := 40, y := 500, page := 0 }) ∧
    ((photoPlacements ["f1", "f2", "f3", "f4"] { x := 40, y := 500, page := 0 })[3]?).map
        Prod.snd =
      (((photoPlacements ["f1", "f2", "f3", "f4"] { x := 40, y := 500, page := 0 })[2]?).map
        Prod.snd).map gridAdvanceClaim :=
  ⟨(C5_photo_grid_layout ["f1", "f2", "f3", "f4"] 500 0 (by simp)).1,
   (C5_photo_grid_layout ["f1", "f2", "f3", "f4"] 500 0 (by simp)).2.2.1,
   (C5_photo_grid_layout ["f1", "f2", "f3", "f4"] 500 0 (by simp)).2.2.2 2 (by simp)⟩

/-- C6 counterexample: the GET /api/informes route ignores its query
string, so a request filtering on usuario a still returns a stored
record whose usuario is b. -/
theorem C6_informes_ignores_filters_counterexample :
    recUserB ∈ listInformes [recUserB]
      { usuario := some "a", estado := none, desde := none, hasta := none } ∧
    recUserB.usuario ≠ some "a" := by
  constructor
  · simp [listInformes, sortByCreatedDesc, insertByCreated]
  · decide

/-- C6 (amended): on the GET /api/reports route, a non-empty usuario
filter returns exactly the stored records whose usuario column equals
it, and adding a non-empty estado filter yields exactly the
intersection of the two single-filter results; the GET /api/informes
route ignores query filters and returns every record. -/
theorem C6_list_filter_submitter (db : DB) (u e : String) (r : Report)
    (hu : u ≠ "") (he : e ≠ "") :
    (r ∈ listReports db { usuario := some u, estado := none, desde := none, hasta := none } ↔
      r ∈ db ∧ r.usuario = some u) ∧
    (r ∈ listReports db { usuario := some u, estado := some e, desde := none, hasta := none } ↔
      (r ∈ listReports db { usuario := some u, estado := none, desde := none, hasta := none } ∧
       r ∈ listReports db { usuario := none, estado := some e, desde := none, hasta := none })) ∧
    (r ∈ listInformes db { usuario := some u, estado := none, desde := none, hasta := none } ↔
      r ∈ db) := by
  have hu' : (u == "") = false := by simpa using hu
  have he' : (e == "") = false := by simpa using he
  refine ⟨?_, ?_, ?_⟩
  · rw [listReports, mem_sortByCreatedDesc, List.mem_filter]
    simp [whereMatch, truthy, jsStr, hu']
  · rw [listReports, listReports, listReports, mem_sortByCreatedDesc,
      mem_sortByCreatedDesc, mem_sortByCreatedDesc, List.mem_filter,
      List.mem_filter, List.mem_filter]
    simp only [whereMatch, truthy, jsStr, hu', he', Bool.not_false, Bool.true_or,
      Bool.not_true, Bool.false_or, Bool.and_eq_true, beq_iff_eq, Bool.and_true,
      Bool.true_and]
    tauto
  · rw [listInformes, mem_sortByCreatedDesc]

/-- C6 witness: the amended theorem at a concrete one-record table with
non-empty usuario and estado filter values. -/
theorem C6_list_filter_submitter_witness :
    (recUserB ∈ listReports [recUserB]
        { usuario := some "b", estado := none, desde := none, hasta := none } ↔
      recUserB ∈ [recUserB] ∧ recUserB.usuario = some "b") ∧
    (recUserB ∈ listReports [recUserB]
        { usuario := some "b", estado := some "ENVIADO", desde := none, hasta := none } ↔
      (recUserB ∈ listReports [recUserB]
          { usuario := some "b", estado := none, desde := none, hasta := none } ∧
       recUserB ∈ listReports [recUserB]
          { usuario := none, estado := some "ENVIADO", desde := none, hasta := none })) ∧
    (recUserB ∈ listInformes [recUserB]
        { usuario := some "b", estado := none, desde := none, hasta := none } ↔
      recUserB ∈ [recUserB]) :=
  C6_list_filter_submitter [recUserB] "b" "ENVIADO" recUserB
    (by decide) (by decide)

/-- C7: the text encoded into the QR image is exactly the public view
URL and the public document URL joined by a single pipe character
(both variants), so any decoder that inverts the encoder yields back
that exact pipe-joined string. -/
theorem C7_qr_text_roundtrip (env : Env) (r : Report) (enc dec : String → String)
    (hrt : ∀ s, dec (enc s) = s) :
    qrTextLocal env r = publicReportURL env r ++ "|" ++ publicPDFURLLocal env r ∧
    qrTextCloud env r = publicReportURL env r ++ "|" ++ publicPDFURLCloud env r ∧
    dec (enc (qrTextLocal env r)) =
      publicReportURL env r ++ "|" ++ publicPDFURLLocal env r ∧
    dec (enc (qrTextCloud env r)) =
      publicReportURL env r ++ "|" ++ publicPDFURLCloud env r :=
  ⟨rfl, rfl, hrt _, hrt _⟩

/-- C7 witness: the round trip at a concrete report with the identity
encoder and decoder pair. -/
theorem C7_qr_text_roundtrip_witness :
    (fun s => s) ((fun s : String => s) (qrTextLocal envW recW)) =
      publicReportURL envW recW ++ "|" ++ publicPDFURLLocal envW recW :=
  (C7_qr_text_roundtrip envW recW (fun s => s) (fun s => s) (fun _ => rfl)).2.2.1

/-- C8: calling the asset store twice with identical bucket, path,
bytes and content type leaves the stored state identical to calling it
once and returns the same reference (upsert overwrite semantics);
likewise the overwriting file write of the sqlite variant. -/
theorem C8_store_idempotent (sURL : String) (st : StorageState) (fs : FS)
    (bucket p bytes ct : String) :
    (uploadToStorage sURL (uploadToStorage sURL st bucket p bytes ct).1 bucket p bytes ct).1
      = (uploadToStorage sURL st bucket p bytes ct).1 ∧
    (uploadToStorage sURL (uploadToStorage sURL st bucket p bytes ct).1 bucket p bytes ct).2
      = (uploadToStorage sURL st bucket p bytes ct).2 ∧
    writeFile (writeFile fs p bytes) p bytes = writeFile fs p bytes := by
  refine ⟨funext fun k => ?_, rfl, funext fun q => ?_⟩
  · by_cases h : k = (bucket, p) <;> simp [uploadToStorage, h]
  · by_cases h : q = p <;> simp [writeFile, h]

/-- C9: a record created by a successful submission carries estado
data.estado or ENVIADO when that field is falsy (both variants), so an
absent estado yields ENVIADO, and the stored estado is PENDIENTE
exactly when the client explicitly submitted estado = PENDIENTE. -/
theorem C9_estado_default (env : Env) (emb : Bool) (fs : FS)
    (st : StorageState) (db dbI : DB) (id now now2 idI nowI : String)
    (b bI : ReqBody) (ff fa ffI faI : List FileUpload) (cur curI : RenderCursor)
    (rid purl ridI purlI : String) (vurl vurlI : Option String) :
    ((postReport env emb fs db id now now2 b ff fa cur).1 = .ok rid purl vurl →
      ∃ r, getReportDetail (postReport env emb fs db id now now2 b ff fa cur).2.1 id =
          .found r ∧ r.estado = estadoValue b.estado) ∧
    ((postInformes env st dbI idI nowI bI ffI faI curI).1 = .ok ridI purlI vurlI →
      ∃ r, getReportDetail (postInformes env st dbI idI nowI bI ffI faI curI).2.1 idI =
          .found r ∧ r.estado = estadoValue bI.estado) ∧
    estadoValue none = "ENVIADO" ∧
    (∀ eo : Option String, estadoValue eo = "PENDIENTE" ↔ eo = some "PENDIENTE") := by
  refine ⟨?_, ?_, rfl, estadoValue_pendiente_iff⟩
  · intro hok
    obtain ⟨hrid, ft, fc, pdfPath, hdb, hfresh⟩ :=
      postReport_ok_shape env emb fs db id now now2 b ff fa cur rid purl vurl hok
    have hlook : dbGet (postReport env emb fs db id now now2 b ff fa cur).2.1 id =
        some { insertedRecord id now b ft fc
            (ff.map (fun f => "/uploads/" ++ f.filename))
            (fa.map (fun f => "/uploads/" ++ f.filename)) with
          pdf_path := some pdfPath, updated_at := now2 } := by
      rw [hdb]
      exact dbGet_update_insert _ _ _ _ _ hfresh rfl
    rw [getReportDetail, hlook]
    exact ⟨_, rfl, rfl⟩
  · intro hok
    obtain ⟨hrid, ft, fc, fotos, anexos, pdfUrl, hdb, hfresh⟩ :=
      postInformes_ok_shape env st dbI idI nowI bI ffI faI curI ridI purlI vurlI hok
    have hlook : dbGet (postInformes env st dbI idI nowI bI ffI faI curI).2.1 idI =
        some { insertedRecord idI nowI bI ft fc fotos anexos with
          pdf_path := some pdfUrl } := by
      rw [hdb]
      exact dbGetOnly_update_insert _ _ _ _ hfresh rfl
    rw [getReportDetail, hlook]
    exact ⟨_, rfl, rfl⟩

/-- C9 witness: a concrete submission with estado absent; the stored
record's estado evaluates to ENVIADO. -/
theorem C9_estado_default_witness :
    (∃ r, getReportDetail
        (postReport envW true fs0 [] "i" "t" "t2" bodyValid [] [] cur0).2.1 "i" =
        .found r ∧ r.estado = estadoValue bodyValid.estado) ∧
    estadoValue bodyValid.estado = "ENVIADO" :=
  ⟨(C9_estado_default envW true fs0 st0 [] [] "i" "t" "t2" "i" "t"
      bodyValid bodyValid [] [] [] [] cur0 cur0
      "i" "B/uploads/Reporte_R1_u_t.pdf"
      "i" "S/storage/v1/object/public/informes/pdfs/i/Reporte_R1_u_D.pdf"
      (some "B/public/report.html?id=i") none).1 rfl, rfl⟩

/-- C10: a submission whose firma_tecnico or firma_cliente is a
non-empty string with no comma makes the data-URL decoding helper
throw; the request fails with a 500 before the repository insert runs,
so the table is unchanged (both variants; on the /api/reports route
the required fields must pass validation first, otherwise the response
is a 400, which also precedes the insert). -/
theorem C10_malformed_signature (env : Env) (emb : Bool) (fs : FS)
    (st : StorageState) (db dbI : DB) (id now now2 idI nowI : String)
    (b bI : ReqBody) (ff fa ffI faI : List FileUpload) (cur curI : RenderCursor) :
    ((validateReports b).isEmpty = true →
      (malformedSig b.firma_tecnico = true ∨
        ((∃ pr, processSignature fs ("firma_tecnico_" ++ id) b.firma_tecnico = .ok pr) ∧
          malformedSig b.firma_cliente = true)) →
      (∃ e, (postReport env emb fs db id now now2 b ff fa cur).1 = .serverError e) ∧
      (postReport env emb fs db id now now2 b ff fa cur).2.1 = db) ∧
    ((malformedSig bI.firma_tecnico = true ∨
        ((∃ pr, processSignatureCloud env st (idI ++ "_tecnico") bI.firma_tecnico = .ok pr) ∧
          malformedSig bI.firma_cliente = true)) →
      (∃ e, (postInformes env st dbI idI nowI bI ffI faI curI).1 = .serverError e) ∧
      (postInformes env st dbI idI nowI bI ffI faI curI).2.1 = dbI) := by
  constructor
  · intro hv hmal
    rcases hmal with hmal | ⟨⟨pr, h1⟩, hmal2⟩
    · have h1 := processSignature_malformed fs ("firma_tecnico_" ++ id) _ hmal
      exact ⟨⟨"TypeError: first argument must be of type string",
        by simp [postReport, hv, h1]⟩, by simp [postReport, hv, h1]⟩
    · obtain ⟨ft, fs1⟩ := pr
      have h2 := processSignature_malformed fs1 ("firma_cliente_" ++ id) _ hmal2
      exact ⟨⟨"TypeError: first argument must be of type string",
        by simp [postReport, hv, h1, h2]⟩, by simp [postReport, hv, h1, h2]⟩
  · intro hmal
    rcases hmal with hmal | ⟨⟨pr, h1⟩, hmal2⟩
    · have h1 := processSignatureCloud_malformed env st (idI ++ "_tecnico") _ hmal
      exact ⟨⟨"TypeError: first argument must be of type string",
        by simp [postInformes, h1]⟩, by simp [postInformes, h1]⟩
    · obtain ⟨ft, st1⟩ := pr
      have h2 := processSignatureCloud_malformed env st1 (idI ++ "_cliente") _ hmal2
      exact ⟨⟨"TypeError: first argument must be of type string",
        by simp [postInformes, h1, h2]⟩, by simp [postInformes, h1, h2]⟩

/-- C10 witness: a concrete submission with a comma-free signature data
URL is rejected with a 500 and the table stays empty. -/
theorem C10_malformed_signature_witness :
    (∃ e, (postReport envW true fs0 [] "i" "t" "t2" bodyBadSig [] [] cur0).1 =
      .serverError e) ∧
    (postReport envW true fs0 [] "i" "t" "t2" bodyBadSig [] [] cur0).2.1 = [] :=
  (C10_malformed_signature envW true fs0 st0 [] [] "i" "t" "t2" "i" "t"
    bodyBadSig bodyBadSig [] [] [] [] cur0 cur0).1 rfl (Or.inl (by decide))

end FerreVargas
